import Mathlib

/-!
Shallow embedding of the td-audio-bridge audio analysis core
(`src/scripts/audio_analyzer.py` and `src/scripts/transient_detector.py`).

Conventions of the embedding:
* Python floats are modelled as exact rationals (`ℚ`).
* `math.sqrt` is a foreign function for this development: the analyzer
  operations are parameterised over an arbitrary `sqrtFn : ℚ → ℚ`
  standing for it (no claim depends on its numeric value).
* `time.time() * 1000` is an oracle input: each detector method takes the
  current wall-clock time in milliseconds as an explicit argument `now`.
* `collections.deque(maxlen = cap)` is a list with bounded append
  (`dequeAppend`): appending beyond capacity drops the oldest entries.
* Python `int(x)` is truncation toward zero (`truncInt`).
* Callback functions are modelled by opaque identifiers (`ℕ`); firing the
  callbacks returns the list of performed invocations.
-/

/-- Python `int(x)`: truncation toward zero. -/
def truncInt (q : ℚ) : ℤ :=
  if 0 ≤ q then ⌊q⌋ else ⌈q⌉

/-- `collections.deque(maxlen := cap)` append: push on the right, evict from
the left once over capacity. -/
def dequeAppend (cap : ℕ) (l : List ℚ) (x : ℚ) : List ℚ :=
  let l2 := l ++ [x]
  l2.drop (l2.length - cap)

/-- `sum(l) / len(l)` (Python mean of a history buffer; `0` on `[]` since
`ℚ` division by zero is zero, matching the guarded call sites). -/
def listAvg (l : List ℚ) : ℚ := l.sum / l.length

/-- Python `max(...)` over a non-empty list (`0` on `[]`; all call sites
guard emptiness or take absolute values, so the default is never hit with
a different answer). -/
def listMax (l : List ℚ) : ℚ :=
  match l with
  | [] => 0
  | h :: t => t.foldl max h

/-- A TouchDesigner CHOP reference: channel count plus the sample window of
channel 0 (`chop[0]`); `numSamples` is the length of that window. -/
structure ChopRef where
  numChans : ℕ
  samples : List ℚ
deriving DecidableEq, Repr

/-- The per-tick analysis frame returned by `AudioAnalyzer.analyze_chop`
(the Python result dict). -/
structure Frame where
  frequency_data : List ℚ
  rms : ℚ
  peak : ℚ
  envelope : ℚ
  bands8 : List ℚ
  bands16 : List ℚ
  bands32 : List ℚ
deriving DecidableEq, Repr

/-- Persistent state of `AudioAnalyzer` (src/scripts/audio_analyzer.py). -/
structure AudioAnalyzer where
  fft_size : ℕ
  smoothing_time_constant : ℚ
  frequency_bin_count : ℕ
  frequency_data : List ℚ
  time_domain_data : List ℚ
  rms_level : ℚ
  peak_level : ℚ
  history_size : ℕ
  rms_history : List ℚ
  peak_history : List ℚ
  attack_frames : ℕ
  release_frames : ℕ
  envelope_value : ℚ
deriving DecidableEq, Repr

namespace AudioAnalyzer

/-- `AudioAnalyzer.__init__(fft_size, smoothing_time_constant)`. -/
def init (fft_size : ℕ) (stc : ℚ) : AudioAnalyzer :=
  { fft_size := fft_size
    smoothing_time_constant := stc
    frequency_bin_count := fft_size / 2
    frequency_data := List.replicate (fft_size / 2) 0
    time_domain_data := List.replicate fft_size 0
    rms_level := 0
    peak_level := 0
    history_size := 60
    rms_history := []
    peak_history := []
    attack_frames := 1
    release_frames := 30
    envelope_value := 0 }

/-- The per-bin smoothing loop of `analyze_chop`: for each index of `raw`
that is also an index of the stored spectrum, blend with the smoothing
constant; remaining stored bins are untouched. -/
def smoothList (stc : ℚ) : List ℚ → List ℚ → List ℚ
  | fd, [] => fd
  | [], _ => []
  | f :: fs, r :: rs => (stc * f + (1 - stc) * r) :: smoothList stc fs rs

/-- The integer band boundary `int((bin_count / num_bands) * band)` of
`_calculate_bands`. -/
def startBin (bin_count num_bands band : ℕ) : ℕ :=
  (truncInt ((bin_count : ℚ) / (num_bands : ℚ) * (band : ℚ))).toNat

/-- `AudioAnalyzer._calculate_bands` applied to a spectrum list. -/
def calculate_bands (fd : List ℚ) (num_bands : ℕ) : List ℚ :=
  let bin_count := fd.length
  (List.range num_bands).map fun band =>
    let start_bin := startBin bin_count num_bands band
    let end_bin := startBin bin_count num_bands (band + 1)
    let group := (fd.drop start_bin).take (end_bin - start_bin)
    if start_bin < end_bin then group.sum / ((end_bin : ℚ) - (start_bin : ℚ))
    else 0

/-- `AudioAnalyzer._update_levels`: RMS, peak, envelope follower and the
bounded level histories. `sqrtFn` models `math.sqrt`. -/
def update_levels (sqrtFn : ℚ → ℚ) (a : AudioAnalyzer) (samples : List ℚ) :
    AudioAnalyzer :=
  let n := samples.length
  let sum_squares := (samples.map fun v => v * v).sum
  let current_rms := if 0 < n then sqrtFn (sum_squares / (n : ℚ)) else 0
  let current_peak := if 0 < n then listMax (samples.map fun v => |v|) else 0
  let env :=
    if current_peak > a.envelope_value then
      a.envelope_value + (current_peak - a.envelope_value) / (a.attack_frames : ℚ)
    else
      a.envelope_value - (a.envelope_value - current_peak) / (a.release_frames : ℚ)
  let env := max 0 (min 1 env)
  { a with
    envelope_value := env
    rms_level := current_rms
    peak_level := current_peak
    rms_history := dequeAppend a.history_size a.rms_history current_rms
    peak_history := dequeAppend a.history_size a.peak_history current_peak }

/-- `AudioAnalyzer._get_empty_analysis`. -/
def get_empty_analysis (a : AudioAnalyzer) : Frame :=
  { frequency_data := List.replicate a.frequency_bin_count 0
    rms := 0
    peak := 0
    envelope := 0
    bands8 := List.replicate 8 0
    bands16 := List.replicate 16 0
    bands32 := List.replicate 32 0 }

/-- `AudioAnalyzer.analyze_chop`: returns the updated analyzer state and the
analysis frame. -/
def analyze_chop (sqrtFn : ℚ → ℚ) (a : AudioAnalyzer) (chop : Option ChopRef) :
    AudioAnalyzer × Frame :=
  match chop with
  | none => (a, a.get_empty_analysis)
  | some c =>
    if c.samples.length = 0 ∨ c.numChans = 0 then (a, a.get_empty_analysis)
    else
      let raw := c.samples.take (min c.samples.length a.frequency_bin_count)
      let fd := smoothList a.smoothing_time_constant a.frequency_data raw
      let a1 := { a with frequency_data := fd }
      let a2 := update_levels sqrtFn a1 c.samples
      (a2,
        { frequency_data := a2.frequency_data
          rms := a2.rms_level
          peak := a2.peak_level
          envelope := a2.envelope_value
          bands8 := calculate_bands a2.frequency_data 8
          bands16 := calculate_bands a2.frequency_data 16
          bands32 := calculate_bands a2.frequency_data 32 })

/-- `AudioAnalyzer.get_frequency_range`. -/
def get_frequency_range (a : AudioAnalyzer) (min_freq max_freq sample_rate : ℚ) : ℚ :=
  let freq_per_bin := sample_rate / (a.fft_size : ℚ)
  let start_bin : ℤ := truncInt (min_freq / freq_per_bin)
  let end_bin : ℤ := truncInt (max_freq / freq_per_bin)
  let n : ℤ := a.frequency_data.length
  let start_bin := max 0 (min start_bin (n - 1))
  let end_bin := max 0 (min end_bin n)
  if end_bin ≤ start_bin then 0
  else
    let group := (a.frequency_data.drop start_bin.toNat).take (end_bin - start_bin).toNat
    group.sum / ((end_bin : ℚ) - (start_bin : ℚ))

/-- `AudioAnalyzer.set_attack_release`. -/
def set_attack_release (a : AudioAnalyzer) (attack_ms release_ms fps : ℚ) :
    AudioAnalyzer :=
  { a with
    attack_frames := max 1 (truncInt (attack_ms / 1000 * fps)).toNat
    release_frames := max 1 (truncInt (release_ms / 1000 * fps)).toNat }

/-- `AudioAnalyzer.reset`. -/
def reset (a : AudioAnalyzer) : AudioAnalyzer :=
  { a with
    frequency_data := List.replicate a.frequency_bin_count 0
    time_domain_data := List.replicate a.fft_size 0
    rms_level := 0
    peak_level := 0
    envelope_value := 0
    rms_history := []
    peak_history := [] }

end AudioAnalyzer

/-- A detection result dict (`TransientDetector._get_detection_result`):
`time` is the wall-clock second the result was built at, `threshold` the
stored `adaptive_threshold` field at that moment. -/
structure DResult where
  triggered : Bool
  strength : ℚ
  time : ℚ
  threshold : ℚ
deriving DecidableEq, Repr

/-- The dict returned by `TransientDetector.get_statistics`. -/
structure Stats where
  total_triggers : ℕ
  last_trigger_strength : ℚ
  current_threshold : ℚ
  avg_energy : ℚ
deriving DecidableEq, Repr

/-- Persistent state of `TransientDetector`
(src/scripts/transient_detector.py). Callbacks are opaque identifiers. -/
structure TransientDetector where
  threshold : ℚ
  sensitivity : ℚ
  min_interval_ms : ℚ
  last_trigger_time : ℚ
  is_triggered : Bool
  current_energy : ℚ
  energy_history : List ℚ
  adaptive_threshold : ℚ
  previous_spectrum : List ℚ
  spectral_flux : ℚ
  flux_history : List ℚ
  on_transient_callbacks : List ℕ
  total_triggers : ℕ
  last_trigger_strength : ℚ
deriving DecidableEq, Repr

namespace TransientDetector

/-- `TransientDetector.__init__(threshold, sensitivity, min_interval_ms)`. -/
def init (threshold sensitivity min_interval_ms : ℚ) : TransientDetector :=
  { threshold := threshold
    sensitivity := sensitivity
    min_interval_ms := min_interval_ms
    last_trigger_time := 0
    is_triggered := false
    current_energy := 0
    energy_history := []
    adaptive_threshold := threshold
    previous_spectrum := []
    spectral_flux := 0
    flux_history := []
    on_transient_callbacks := []
    total_triggers := 0
    last_trigger_strength := 0 }

/-- `TransientDetector._get_detection_result(triggered, strength)`, reading
the current stored `adaptive_threshold`; `tsec` models the `time.time()`
call inside it. -/
def detection_result (d : TransientDetector) (tsec : ℚ) (triggered : Bool)
    (strength : ℚ) : DResult :=
  { triggered := triggered
    strength := strength
    time := tsec
    threshold := d.adaptive_threshold }

/-- `TransientDetector._fire_callbacks(strength, detection_type)`: the list
of invocations performed (callback identifier, strength, label). -/
def fire_callbacks (d : TransientDetector) (strength : ℚ) (label : String) :
    List (ℕ × ℚ × String) :=
  d.on_transient_callbacks.map fun c => (c, strength, label)

/-- `TransientDetector.detect_energy_based(rms_level, peak_level)`; `now` is
`time.time() * 1000`. Returns the updated detector and the result. -/
def detect_energy_based (d : TransientDetector) (now rms_level peak_level : ℚ) :
    TransientDetector × DResult :=
  if now - d.last_trigger_time < d.min_interval_ms then
    (d, d.detection_result (now / 1000) false 0)
  else
    let d1 := { d with
      current_energy := peak_level
      energy_history := dequeAppend 60 d.energy_history peak_level }
    let d2 :=
      if 10 < d1.energy_history.length then
        { d1 with adaptive_threshold :=
            listAvg d1.energy_history + d1.threshold * d1.sensitivity }
      else d1
    let triggered := decide (peak_level > d2.adaptive_threshold)
    let strength :=
      if triggered then peak_level / max (1/100) d2.adaptive_threshold else 0
    let d3 :=
      if triggered then
        { d2 with
          last_trigger_time := now
          total_triggers := d2.total_triggers + 1
          last_trigger_strength := strength }
      else d2
    (d3, d3.detection_result (now / 1000) triggered strength)

/-- The half-wave-rectified spectral flux of `detect_spectral_flux`: the sum
of the positive per-bin differences over the common prefix. -/
def fluxOf : List ℚ → List ℚ → ℚ
  | _, [] => 0
  | [], _ => 0
  | f :: fs, p :: ps => (if f - p > 0 then f - p else 0) + fluxOf fs ps

/-- `TransientDetector.detect_spectral_flux(frequency_data)`. -/
def detect_spectral_flux (d : TransientDetector) (now : ℚ)
    (frequency_data : List ℚ) : TransientDetector × DResult :=
  if now - d.last_trigger_time < d.min_interval_ms then
    (d, d.detection_result (now / 1000) false 0)
  else if d.previous_spectrum = [] then
    ({ d with previous_spectrum := frequency_data },
      d.detection_result (now / 1000) false 0)
  else
    let flux := fluxOf frequency_data d.previous_spectrum
    let d1 := { d with
      spectral_flux := flux
      flux_history := dequeAppend 60 d.flux_history flux }
    let flux_threshold :=
      if 10 < d1.flux_history.length then
        listAvg d1.flux_history * (1 + d1.sensitivity)
      else d1.threshold
    let triggered := decide (flux > flux_threshold)
    let strength :=
      if triggered then flux / max (1/100) flux_threshold else 0
    let d2 :=
      if triggered then
        { d1 with
          last_trigger_time := now
          total_triggers := d1.total_triggers + 1
          last_trigger_strength := strength }
      else d1
    let d3 := { d2 with previous_spectrum := frequency_data }
    (d3, d3.detection_result (now / 1000) triggered strength)

/-- `TransientDetector.detect_band_transient(band_data, band_index)`. -/
def detect_band_transient (d : TransientDetector) (now : ℚ)
    (band_data : List ℚ) (band_index : ℕ) : TransientDetector × DResult :=
  if now - d.last_trigger_time < d.min_interval_ms then
    (d, d.detection_result (now / 1000) false 0)
  else if band_data.length ≤ band_index then
    (d, d.detection_result (now / 1000) false 0)
  else
    let band_energy := band_data.getD band_index 0
    let d1 := { d with energy_history := dequeAppend 60 d.energy_history band_energy }
    let band_threshold :=
      if 10 < d1.energy_history.length then
        listAvg d1.energy_history + d1.threshold * d1.sensitivity
      else d1.threshold
    let triggered := decide (band_energy > band_threshold)
    let strength :=
      if triggered then band_energy / max (1/100) band_threshold else 0
    let d2 :=
      if triggered then
        { d1 with
          last_trigger_time := now
          total_triggers := d1.total_triggers + 1
          last_trigger_strength := strength }
      else d1
    (d2, d2.detection_result (now / 1000) triggered strength)

/-- `TransientDetector.detect_kick(band_data)`: averages bands 0-1; rejects
vectors with fewer than 2 bands before any state change. -/
def detect_kick (d : TransientDetector) (now : ℚ) (band_data : List ℚ) :
    TransientDetector × DResult :=
  if band_data.length < 2 then
    (d, d.detection_result (now / 1000) false 0)
  else
    let kick_energy := (band_data.getD 0 0 + band_data.getD 1 0) / 2
    if now - d.last_trigger_time < d.min_interval_ms then
      (d, d.detection_result (now / 1000) false 0)
    else
      let d1 := { d with energy_history := dequeAppend 60 d.energy_history kick_energy }
      let kick_threshold :=
        if 10 < d1.energy_history.length then
          listAvg d1.energy_history + d1.threshold * d1.sensitivity
        else d1.threshold
      let triggered := decide (kick_energy > kick_threshold)
      let strength :=
        if triggered then kick_energy / max (1/100) kick_threshold else 0
      let d2 :=
        if triggered then
          { d1 with
            last_trigger_time := now
            total_triggers := d1.total_triggers + 1
            last_trigger_strength := strength }
        else d1
      (d2, d2.detection_result (now / 1000) triggered strength)

/-- `TransientDetector.detect_snare(band_data)`: averages bands 2-3; rejects
vectors with fewer than 4 bands before any state change. -/
def detect_snare (d : TransientDetector) (now : ℚ) (band_data : List ℚ) :
    TransientDetector × DResult :=
  if band_data.length < 4 then
    (d, d.detection_result (now / 1000) false 0)
  else
    let snare_energy := (band_data.getD 2 0 + band_data.getD 3 0) / 2
    if now - d.last_trigger_time < d.min_interval_ms then
      (d, d.detection_result (now / 1000) false 0)
    else
      let d1 := { d with energy_history := dequeAppend 60 d.energy_history snare_energy }
      let snare_threshold :=
        if 10 < d1.energy_history.length then
          listAvg d1.energy_history + d1.threshold * d1.sensitivity
        else d1.threshold
      let triggered := decide (snare_energy > snare_threshold)
      let strength :=
        if triggered then snare_energy / max (1/100) snare_threshold else 0
      let d2 :=
        if triggered then
          { d1 with
            last_trigger_time := now
            total_triggers := d1.total_triggers + 1
            last_trigger_strength := strength }
        else d1
      (d2, d2.detection_result (now / 1000) triggered strength)

/-- `TransientDetector.detect_hihat(band_data)`: averages the last two
bands (`band_data[-2:]`); rejects vectors with fewer than 6 bands before
any state change. -/
def detect_hihat (d : TransientDetector) (now : ℚ) (band_data : List ℚ) :
    TransientDetector × DResult :=
  if band_data.length < 6 then
    (d, d.detection_result (now / 1000) false 0)
  else
    let hihat_energy := ((band_data.drop (band_data.length - 2)).sum) / 2
    if now - d.last_trigger_time < d.min_interval_ms then
      (d, d.detection_result (now / 1000) false 0)
    else
      let d1 := { d with energy_history := dequeAppend 60 d.energy_history hihat_energy }
      let hihat_threshold :=
        if 10 < d1.energy_history.length then
          listAvg d1.energy_history + d1.threshold * d1.sensitivity
        else d1.threshold
      let triggered := decide (hihat_energy > hihat_threshold)
      let strength :=
        if triggered then hihat_energy / max (1/100) hihat_threshold else 0
      let d2 :=
        if triggered then
          { d1 with
            last_trigger_time := now
            total_triggers := d1.total_triggers + 1
            last_trigger_strength := strength }
        else d1
      (d2, d2.detection_result (now / 1000) triggered strength)

/-- `TransientDetector.add_callback(callback_func)`. -/
def add_callback (d : TransientDetector) (c : ℕ) : TransientDetector :=
  if c ∈ d.on_transient_callbacks then d
  else { d with on_transient_callbacks := d.on_transient_callbacks ++ [c] }

/-- `TransientDetector.remove_callback(callback_func)` (Python
`list.remove` deletes the first occurrence). -/
def remove_callback (d : TransientDetector) (c : ℕ) : TransientDetector :=
  if c ∈ d.on_transient_callbacks then
    { d with on_transient_callbacks := d.on_transient_callbacks.erase c }
  else d

/-- `TransientDetector.get_statistics()`. -/
def get_statistics (d : TransientDetector) : Stats :=
  { total_triggers := d.total_triggers
    last_trigger_strength := d.last_trigger_strength
    current_threshold := d.adaptive_threshold
    avg_energy := if d.energy_history ≠ [] then listAvg d.energy_history else 0 }

end TransientDetector

/-- One evaluation request against a `TransientDetector`: which detection
variant to run and its per-call arguments. -/
inductive DetectCall where
  | energy (rms_level peak_level : ℚ)
  | flux (frequency_data : List ℚ)
  | band (band_data : List ℚ) (band_index : ℕ)
  | kick (band_data : List ℚ)
  | snare (band_data : List ℚ)
  | hihat (band_data : List ℚ)
deriving DecidableEq, Repr

/-- Dispatch a `DetectCall` to the corresponding detector method at
wall-clock time `now` (milliseconds). -/
def runDetect (d : TransientDetector) (now : ℚ) : DetectCall → TransientDetector × DResult
  | .energy r p => d.detect_energy_based now r p
  | .flux f => d.detect_spectral_flux now f
  | .band b i => d.detect_band_transient now b i
  | .kick b => d.detect_kick now b
  | .snare b => d.detect_snare now b
  | .hihat b => d.detect_hihat now b

/-- A detector state with twelve history entries of `0.1`, as produced by
twelve quiet non-suppressed band evaluations of a cold default detector. -/
def warmDetector : TransientDetector :=
  { TransientDetector.init (3/10) (1/2) 100 with
    energy_history := [1/10, 1/10, 1/10, 1/10, 1/10, 1/10, 1/10, 1/10, 1/10, 1/10,
      1/10, 1/10] }

/-- The 13th band evaluation of `warmDetector`, with a signal of `0.27`
that exceeds the local adaptive threshold but not the stored one. -/
def warmStep : TransientDetector × DResult :=
  warmDetector.detect_band_transient 1300 [27/100] 0

/-- An analyzer whose attack/release were reconfigured to 6 ticks each
(`set_attack_release(100, 100, 60)`). -/
def slowAttackAnalyzer : AudioAnalyzer :=
  (AudioAnalyzer.init 4 (4/5)).set_attack_release 100 100 60

/-- A one-channel, one-sample input window of full-scale amplitude. -/
def oneSampleInput : Option ChopRef := some ⟨1, [1]⟩

/-- An analyzer over 2 frequency bins whose smoothed spectrum holds energy
`5` in the topmost bin. -/
def topBinAnalyzer : AudioAnalyzer :=
  { AudioAnalyzer.init 4 (4/5) with frequency_data := [0, 5] }

/-- A suppressed (debounced) evaluation returns a non-triggered result and
changes nothing, for every variant. -/
theorem runDetect_frozen (d : TransientDetector) (now : ℚ) (call : DetectCall)
    (h : now - d.last_trigger_time < d.min_interval_ms) :
    runDetect d now call = (d, d.detection_result (now / 1000) false 0) := by
  cases call with
  | energy r p => simp [runDetect, TransientDetector.detect_energy_based, h]
  | flux f => simp [runDetect, TransientDetector.detect_spectral_flux, h]
  | band b i => simp [runDetect, TransientDetector.detect_band_transient, h]
  | kick b =>
    by_cases hl : b.length < 2
    · simp [runDetect, TransientDetector.detect_kick, hl]
    · simp [runDetect, TransientDetector.detect_kick, hl, h]
  | snare b =>
    by_cases hl : b.length < 4
    · simp [runDetect, TransientDetector.detect_snare, hl]
    · simp [runDetect, TransientDetector.detect_snare, hl, h]
  | hihat b =>
    by_cases hl : b.length < 6
    · simp [runDetect, TransientDetector.detect_hihat, hl]
    · simp [runDetect, TransientDetector.detect_hihat, hl, h]

/-- A triggering evaluation records `now` as the last-trigger time and
keeps the configured minimum interval. -/
theorem runDetect_trigger (d : TransientDetector) (now : ℚ) (call : DetectCall)
    (h : (runDetect d now call).2.triggered = true) :
    (runDetect d now call).1.last_trigger_time = now
    ∧ (runDetect d now call).1.min_interval_ms = d.min_interval_ms := by
  cases call with
  | energy r p =>
    simp only [runDetect, TransientDetector.detect_energy_based] at h ⊢
    split at h
    · simp [TransientDetector.detection_result] at h
    · next hs =>
      rw [if_neg hs] at *
      simp only [TransientDetector.detection_result, decide_eq_true_eq] at h
      split at h <;> split <;> simp_all
  | flux f =>
    simp only [runDetect, TransientDetector.detect_spectral_flux] at h ⊢
    split at h
    · simp [TransientDetector.detection_result] at h
    · split at h
      · simp [TransientDetector.detection_result] at h
      · next hs hp =>
        rw [if_neg hs, if_neg hp] at *
        simp only [TransientDetector.detection_result, decide_eq_true_eq] at h
        split at h <;> split <;> first | omega | simp_all
  | band b i =>
    simp only [runDetect, TransientDetector.detect_band_transient] at h ⊢
    split at h
    · simp [TransientDetector.detection_result] at h
    · split at h
      · simp [TransientDetector.detection_result] at h
      · next hs hp =>
        rw [if_neg hs, if_neg hp] at *
        simp only [TransientDetector.detection_result, decide_eq_true_eq] at h
        split at h <;> split <;> first | omega | simp_all
  | kick b =>
    simp only [runDetect, TransientDetector.detect_kick] at h ⊢
    split at h
    · simp [TransientDetector.detection_result] at h
    · split at h
      · simp [TransientDetector.detection_result] at h
      · next hs hp =>
        rw [if_neg hs, if_neg hp] at *
        simp only [TransientDetector.detection_result, decide_eq_true_eq] at h
        split at h <;> split <;> first | omega | simp_all
  | snare b =>
    simp only [runDetect, TransientDetector.detect_snare] at h ⊢
    split at h
    · simp [TransientDetector.detection_result] at h
    · split at h
      · simp [TransientDetector.detection_result] at h
      · next hs hp =>
        rw [if_neg hs, if_neg hp] at *
        simp only [TransientDetector.detection_result, decide_eq_true_eq] at h
        split at h <;> split <;> first | omega | simp_all
  | hihat b =>
    simp only [runDetect, TransientDetector.detect_hihat] at h ⊢
    split at h
    · simp [TransientDetector.detection_result] at h
    · split at h
      · simp [TransientDetector.detection_result] at h
      · next hs hp =>
        rw [if_neg hs, if_neg hp] at *
        simp only [TransientDetector.detection_result, decide_eq_true_eq] at h
        split at h <;> split <;> first | omega | simp_all

/-- Claim C1 (debounce): if an evaluation of any detection variant reports
`triggered = true` at time `t`, then any further evaluation of the same
detector, of any variant, at a time `t2` with `t2 - t` below the minimum
interval returns a non-triggered result of strength 0 and leaves the whole
detector state (history, stored adaptive threshold, trigger count,
last-trigger time, previous-spectrum snapshot) exactly unchanged; in
particular two evaluations less than the minimum interval apart never both
report `triggered = true`. -/
theorem debounce_freezes_state (d : TransientDetector) (t t2 : ℚ)
    (call call2 : DetectCall)
    (h1 : (runDetect d t call).2.triggered = true)
    (h2 : t2 - t < d.min_interval_ms) :
    runDetect (runDetect d t call).1 t2 call2
        = ((runDetect d t call).1,
            ((runDetect d t call).1).detection_result (t2 / 1000) false 0)
    ∧ (runDetect (runDetect d t call).1 t2 call2).2.triggered = false
    ∧ (runDetect (runDetect d t call).1 t2 call2).2.strength = 0 := by
  obtain ⟨hl, hm⟩ := runDetect_trigger d t call h1
  have hfr := runDetect_frozen (runDetect d t call).1 t2 call2 (by rw [hl, hm]; exact h2)
  exact ⟨hfr, by rw [hfr]; rfl, by rw [hfr]; rfl⟩

theorem debounce_freezes_state_witness :
    (runDetect (TransientDetector.init (3/10) (1/2) 100) 100 (.energy 0 1)).2.triggered = true
    ∧ ((150:ℚ) - 100 < (TransientDetector.init (3/10) (1/2) 100).min_interval_ms)
    ∧ (runDetect (runDetect (TransientDetector.init (3/10) (1/2) 100) 100 (.energy 0 1)).1
          150 (.flux [1])).2.triggered = false := by
  have h1 : (runDetect (TransientDetector.init (3/10) (1/2) 100) 100 (.energy 0 1)).2.triggered
      = true := by
    norm_num [runDetect, TransientDetector.detect_energy_based, TransientDetector.init,
      TransientDetector.detection_result, dequeAppend, listAvg]
  have h2 : (150:ℚ) - 100 < (TransientDetector.init (3/10) (1/2) 100).min_interval_ms := by
    norm_num [TransientDetector.init]
  exact ⟨h1, h2,
    (debounce_freezes_state (TransientDetector.init (3/10) (1/2) 100) 100 150
      (.energy 0 1) (.flux [1]) h1 h2).2.1⟩

/-- Claim C10 (shape rejection): `detect_kick` on fewer than 2 bands,
`detect_snare` on fewer than 4, `detect_hihat` on fewer than 6, and
`detect_band_transient` with an out-of-range band index each return a
non-triggered result of strength 0 and leave the detector state
completely untouched. -/
theorem shape_rejection_no_side_effects (d : TransientDetector) (now : ℚ)
    (bd : List ℚ) (bi : ℕ) :
    (bd.length < 2 → d.detect_kick now bd = (d, d.detection_result (now / 1000) false 0))
    ∧ (bd.length < 4 → d.detect_snare now bd = (d, d.detection_result (now / 1000) false 0))
    ∧ (bd.length < 6 → d.detect_hihat now bd = (d, d.detection_result (now / 1000) false 0))
    ∧ (bd.length ≤ bi →
        d.detect_band_transient now bd bi = (d, d.detection_result (now / 1000) false 0)) := by
  refine ⟨fun h => ?_, fun h => ?_, fun h => ?_, fun h => ?_⟩
  · simp [TransientDetector.detect_kick, h]
  · simp [TransientDetector.detect_snare, h]
  · simp [TransientDetector.detect_hihat, h]
  · by_cases hs : now - d.last_trigger_time < d.min_interval_ms
    · simp [TransientDetector.detect_band_transient, hs]
    · simp [TransientDetector.detect_band_transient, hs, h]

theorem shape_rejection_witness :
    (TransientDetector.init (3/10) (1/2) 100).detect_kick 100 [1]
      = (TransientDetector.init (3/10) (1/2) 100,
         (TransientDetector.init (3/10) (1/2) 100).detection_result (100 / 1000) false 0) :=
  (shape_rejection_no_side_effects (TransientDetector.init (3/10) (1/2) 100) 100 [1] 0).1
    (by norm_num)

/-- Claim C6 (empty input): when the per-tick input is absent (`none`) or
empty (zero samples or zero channels), `analyze_chop` returns the empty
analysis frame — `frequency_bin_count` zero spectrum entries, zero
rms/peak/envelope, and 8/16/32 zero band entries — and leaves the
analyzer's persistent state unchanged. -/
theorem empty_input_zero_frame (sqrtFn : ℚ → ℚ) (a : AudioAnalyzer) (c : ChopRef)
    (h : c.samples.length = 0 ∨ c.numChans = 0) :
    AudioAnalyzer.analyze_chop sqrtFn a none = (a, a.get_empty_analysis)
    ∧ AudioAnalyzer.analyze_chop sqrtFn a (some c) = (a, a.get_empty_analysis)
    ∧ (a.get_empty_analysis).frequency_data = List.replicate a.frequency_bin_count 0
    ∧ (a.get_empty_analysis).rms = 0
    ∧ (a.get_empty_analysis).peak = 0
    ∧ (a.get_empty_analysis).envelope = 0
    ∧ (a.get_empty_analysis).bands8 = List.replicate 8 0
    ∧ (a.get_empty_analysis).bands16 = List.replicate 16 0
    ∧ (a.get_empty_analysis).bands32 = List.replicate 32 0 := by
  refine ⟨rfl, ?_, rfl, rfl, rfl, rfl, rfl, rfl, rfl⟩
  simp only [AudioAnalyzer.analyze_chop]
  rw [if_pos h]

theorem empty_input_zero_frame_witness :
    AudioAnalyzer.analyze_chop id (AudioAnalyzer.init 8 (4/5)) (some ⟨0, []⟩)
      = (AudioAnalyzer.init 8 (4/5), (AudioAnalyzer.init 8 (4/5)).get_empty_analysis) :=
  (empty_input_zero_frame id (AudioAnalyzer.init 8 (4/5)) ⟨0, []⟩ (Or.inl rfl)).2.1

/-- Claim C9 (callback registration): `add_callback` on an already
registered callback leaves the list unchanged (so registering twice equals
registering once), `remove_callback` on an unregistered callback leaves the
list unchanged, both operations preserve duplicate-freeness, and firing the
callbacks invokes a registered callback exactly once. -/
theorem callback_idempotence (d : TransientDetector) (c : ℕ) (s : ℚ) (lbl : String) :
    (c ∈ d.on_transient_callbacks → d.add_callback c = d)
    ∧ (c ∉ d.on_transient_callbacks → d.remove_callback c = d)
    ∧ ((d.add_callback c).add_callback c = d.add_callback c)
    ∧ (d.on_transient_callbacks.Nodup → (d.add_callback c).on_transient_callbacks.Nodup)
    ∧ (d.on_transient_callbacks.Nodup → (d.remove_callback c).on_transient_callbacks.Nodup)
    ∧ (d.on_transient_callbacks.Nodup →
        ((d.fire_callbacks s lbl).map Prod.fst).count c
          = if c ∈ d.on_transient_callbacks then 1 else 0) := by
  refine ⟨fun h => ?_, fun h => ?_, ?_, fun h => ?_, fun h => ?_, fun h => ?_⟩
  · simp [TransientDetector.add_callback, h]
  · simp [TransientDetector.remove_callback, h]
  · by_cases h : c ∈ d.on_transient_callbacks
    · simp [TransientDetector.add_callback, h]
    · simp [TransientDetector.add_callback, h]
  · unfold TransientDetector.add_callback
    split
    · exact h
    · next hc =>
      simp only []
      exact List.Nodup.append h (List.nodup_singleton c)
        (by simpa [List.disjoint_singleton] using hc)
  · unfold TransientDetector.remove_callback
    split
    · exact h.erase c
    · exact h
  · rw [TransientDetector.fire_callbacks, List.map_map]
    have hid : (Prod.fst ∘ fun c : ℕ => (c, s, lbl)) = id := rfl
    rw [hid, List.map_id]
    exact List.count_eq_of_nodup h

theorem callback_idempotence_witness :
    ((TransientDetector.init (3/10) (1/2) 100).add_callback 7).add_callback 7
        = (TransientDetector.init (3/10) (1/2) 100).add_callback 7
    ∧ ((((TransientDetector.init (3/10) (1/2) 100).add_callback 7).fire_callbacks 1
          "energy").map Prod.fst).count 7 = 1 := by
  have hmem : 7 ∈ ((TransientDetector.init (3/10) (1/2) 100).add_callback
      7).on_transient_callbacks := by
    simp [TransientDetector.add_callback, TransientDetector.init]
  have hnd : ((TransientDetector.init (3/10) (1/2) 100).add_callback
      7).on_transient_callbacks.Nodup := by
    simp [TransientDetector.add_callback, TransientDetector.init]
  refine ⟨(callback_idempotence _ 7 1 "energy").1 hmem, ?_⟩
  have hcnt := (callback_idempotence ((TransientDetector.init (3/10) (1/2) 100).add_callback 7)
    7 1 "energy").2.2.2.2.2 hnd
  rw [hcnt, if_pos hmem]


/-- Claim C2, amended: on every non-suppressed evaluation each variant
appends its monitored signal to the corresponding history, but only the
energy variant writes the stored `adaptive_threshold` (and only once the
history exceeds 10 entries); the spectral-flux, band, kick, snare and
hi-hat variants compute a local threshold and leave the stored adaptive
threshold — the value reported as `threshold` in the result and as
`current_threshold` by `get_statistics` — unchanged. -/
theorem history_update_and_stale_threshold (d : TransientDetector) (now : ℚ)
    (hs : ¬(now - d.last_trigger_time < d.min_interval_ms)) :
    (∀ r p,
        (d.detect_energy_based now r p).1.energy_history = dequeAppend 60 d.energy_history p
        ∧ (d.detect_energy_based now r p).1.adaptive_threshold
            = (if 10 < (dequeAppend 60 d.energy_history p).length
               then listAvg (dequeAppend 60 d.energy_history p) + d.threshold * d.sensitivity
               else d.adaptive_threshold)
        ∧ (d.detect_energy_based now r p).2.threshold
            = (d.detect_energy_based now r p).1.adaptive_threshold)
    ∧ (∀ freq, d.previous_spectrum ≠ [] →
        (d.detect_spectral_flux now freq).1.flux_history
            = dequeAppend 60 d.flux_history (TransientDetector.fluxOf freq d.previous_spectrum)
        ∧ (d.detect_spectral_flux now freq).1.adaptive_threshold = d.adaptive_threshold
        ∧ (d.detect_spectral_flux now freq).2.threshold = d.adaptive_threshold)
    ∧ (∀ bd bi, bi < bd.length →
        (d.detect_band_transient now bd bi).1.energy_history
            = dequeAppend 60 d.energy_history (bd.getD bi 0)
        ∧ (d.detect_band_transient now bd bi).1.adaptive_threshold = d.adaptive_threshold
        ∧ (d.detect_band_transient now bd bi).2.threshold = d.adaptive_threshold
        ∧ ((d.detect_band_transient now bd bi).1.get_statistics).current_threshold
            = d.adaptive_threshold)
    ∧ (∀ bd, 2 ≤ bd.length →
        (d.detect_kick now bd).1.energy_history
            = dequeAppend 60 d.energy_history ((bd.getD 0 0 + bd.getD 1 0) / 2)
        ∧ (d.detect_kick now bd).1.adaptive_threshold = d.adaptive_threshold
        ∧ (d.detect_kick now bd).2.threshold = d.adaptive_threshold)
    ∧ (∀ bd, 4 ≤ bd.length →
        (d.detect_snare now bd).1.energy_history
            = dequeAppend 60 d.energy_history ((bd.getD 2 0 + bd.getD 3 0) / 2)
        ∧ (d.detect_snare now bd).1.adaptive_threshold = d.adaptive_threshold
        ∧ (d.detect_snare now bd).2.threshold = d.adaptive_threshold)
    ∧ (∀ bd, 6 ≤ bd.length →
        (d.detect_hihat now bd).1.energy_history
            = dequeAppend 60 d.energy_history ((bd.drop (bd.length - 2)).sum / 2)
        ∧ (d.detect_hihat now bd).1.adaptive_threshold = d.adaptive_threshold
        ∧ (d.detect_hihat now bd).2.threshold = d.adaptive_threshold) := by
  refine ⟨fun r p => ?_, fun freq hp => ?_, fun bd bi hbi => ?_, fun bd hl => ?_,
    fun bd hl => ?_, fun bd hl => ?_⟩
  · by_cases h10 : 10 < (dequeAppend 60 d.energy_history p).length <;>
      · refine ⟨?_, ?_, ?_⟩ <;>
          simp [TransientDetector.detect_energy_based, TransientDetector.detection_result,
            hs, h10, apply_ite]
  · refine ⟨?_, ?_, ?_⟩ <;>
      simp [TransientDetector.detect_spectral_flux, TransientDetector.detection_result,
        hs, hp, apply_ite]
  · have hbi2 : ¬(bd.length ≤ bi) := not_le.mpr hbi
    refine ⟨?_, ?_, ?_, ?_⟩ <;>
      simp [TransientDetector.detect_band_transient, TransientDetector.detection_result,
        TransientDetector.get_statistics, hs, hbi2, apply_ite]
  · have hl2 : ¬(bd.length < 2) := not_lt.mpr hl
    refine ⟨?_, ?_, ?_⟩ <;>
      simp [TransientDetector.detect_kick, TransientDetector.detection_result,
        hs, hl2, apply_ite]
  · have hl2 : ¬(bd.length < 4) := not_lt.mpr hl
    refine ⟨?_, ?_, ?_⟩ <;>
      simp [TransientDetector.detect_snare, TransientDetector.detection_result,
        hs, hl2, apply_ite]
  · have hl2 : ¬(bd.length < 6) := not_lt.mpr hl
    refine ⟨?_, ?_, ?_⟩ <;>
      simp [TransientDetector.detect_hihat, TransientDetector.detection_result,
        hs, hl2, apply_ite]

theorem history_update_witness :
    ((TransientDetector.init (3/10) (1/2) 100).detect_band_transient 100 [1/2] 0).1.energy_history
        = [1/2]
    ∧ ((TransientDetector.init (3/10) (1/2) 100).detect_band_transient 100
        [1/2] 0).1.adaptive_threshold = 3/10 := by
  have hs : ¬((100:ℚ) - (TransientDetector.init (3/10) (1/2) 100).last_trigger_time
      < (TransientDetector.init (3/10) (1/2) 100).min_interval_ms) := by
    norm_num [TransientDetector.init]
  have h := (history_update_and_stale_threshold (TransientDetector.init (3/10) (1/2) 100)
    100 hs).2.2.1 [1/2] 0 (by norm_num)
  refine ⟨?_, ?_⟩
  · have := h.1
    simpa [TransientDetector.init, dequeAppend] using this
  · have := h.2.1
    simpa [TransientDetector.init] using this

/-- Counterexample to claim C2 as stated: a 13th quiet-history band
evaluation triggers against the local mean-based threshold (0.27 exceeds
it) while the stored adaptive threshold reported in the result and the
statistics stays at the initial base value 0.3, which 0.27 does not
exceed — so the stored adaptive threshold was not updated. -/
theorem stale_threshold_counterexample :
    warmStep.2.triggered = true
    ∧ warmStep.2.threshold = 3/10
    ∧ warmStep.1.adaptive_threshold = 3/10
    ∧ (warmStep.1.get_statistics).current_threshold = 3/10
    ∧ ¬((27/100 : ℚ) > 3/10) := by
  norm_num [warmStep, warmDetector, TransientDetector.detect_band_transient,
    TransientDetector.init, TransientDetector.detection_result,
    TransientDetector.get_statistics, dequeAppend, listAvg]

/-- Claim C3 (adaptive-threshold transition): on a non-suppressed
evaluation, while the post-append history holds at most 10 entries every
variant detects against the configured base threshold unmodified (for the
energy variant provided its stored adaptive threshold still equals the
base threshold, as on a cold detector); as soon as the history exceeds 10
entries, detection uses `mean(history) + baseThreshold * sensitivity` for
the energy/band/kick/snare/hi-hat variants and `mean(history) *
(1 + sensitivity)` for the spectral-flux variant, with the reported
strength `signal / max(0.01, threshold)` when triggered and 0 otherwise. -/
theorem adaptive_threshold_transition (d : TransientDetector) (now : ℚ)
    (hs : ¬(now - d.last_trigger_time < d.min_interval_ms)) :
    (∀ r p,
        ((dequeAppend 60 d.energy_history p).length ≤ 10 →
          d.adaptive_threshold = d.threshold →
          (d.detect_energy_based now r p).2.triggered = decide (p > d.threshold)
          ∧ (d.detect_energy_based now r p).2.strength
              = (if p > d.threshold then p / max (1/100) d.threshold else 0))
      ∧ (10 < (dequeAppend 60 d.energy_history p).length →
          (d.detect_energy_based now r p).2.triggered
            = decide (p > listAvg (dequeAppend 60 d.energy_history p)
                + d.threshold * d.sensitivity)
          ∧ (d.detect_energy_based now r p).2.strength
              = (if p > listAvg (dequeAppend 60 d.energy_history p)
                    + d.threshold * d.sensitivity
                 then p / max (1/100)
                    (listAvg (dequeAppend 60 d.energy_history p) + d.threshold * d.sensitivity)
                 else 0)))
    ∧ (∀ freq, d.previous_spectrum ≠ [] →
        ((dequeAppend 60 d.flux_history (TransientDetector.fluxOf freq
            d.previous_spectrum)).length ≤ 10 →
          (d.detect_spectral_flux now freq).2.triggered
            = decide (TransientDetector.fluxOf freq d.previous_spectrum > d.threshold)
          ∧ (d.detect_spectral_flux now freq).2.strength
              = (if TransientDetector.fluxOf freq d.previous_spectrum > d.threshold
                 then TransientDetector.fluxOf freq d.previous_spectrum
                    / max (1/100) d.threshold
                 else 0))
      ∧ (10 < (dequeAppend 60 d.flux_history (TransientDetector.fluxOf freq
            d.previous_spectrum)).length →
          (d.detect_spectral_flux now freq).2.triggered
            = decide (TransientDetector.fluxOf freq d.previous_spectrum
                > listAvg (dequeAppend 60 d.flux_history (TransientDetector.fluxOf freq
                    d.previous_spectrum)) * (1 + d.sensitivity))
          ∧ (d.detect_spectral_flux now freq).2.strength
              = (if TransientDetector.fluxOf freq d.previous_spectrum
                    > listAvg (dequeAppend 60 d.flux_history (TransientDetector.fluxOf freq
                        d.previous_spectrum)) * (1 + d.sensitivity)
                 then TransientDetector.fluxOf freq d.previous_spectrum / max (1/100)
                    (listAvg (dequeAppend 60 d.flux_history (TransientDetector.fluxOf freq
                        d.previous_spectrum)) * (1 + d.sensitivity))
                 else 0)))
    ∧ (∀ bd bi, bi < bd.length →
        ((dequeAppend 60 d.energy_history (bd.getD bi 0)).length ≤ 10 →
          (d.detect_band_transient now bd bi).2.triggered
            = decide (bd.getD bi 0 > d.threshold)
          ∧ (d.detect_band_transient now bd bi).2.strength
              = (if bd.getD bi 0 > d.threshold
                 then bd.getD bi 0 / max (1/100) d.threshold else 0))
      ∧ (10 < (dequeAppend 60 d.energy_history (bd.getD bi 0)).length →
          (d.detect_band_transient now bd bi).2.triggered
            = decide (bd.getD bi 0 > listAvg (dequeAppend 60 d.energy_history (bd.getD bi 0))
                + d.threshold * d.sensitivity)
          ∧ (d.detect_band_transient now bd bi).2.strength
              = (if bd.getD bi 0 > listAvg (dequeAppend 60 d.energy_history (bd.getD bi 0))
                    + d.threshold * d.sensitivity
                 then bd.getD bi 0 / max (1/100)
                    (listAvg (dequeAppend 60 d.energy_history (bd.getD bi 0))
                      + d.threshold * d.sensitivity)
                 else 0)))
    ∧ (∀ bd, 2 ≤ bd.length →
        ((dequeAppend 60 d.energy_history ((bd.getD 0 0 + bd.getD 1 0) / 2)).length ≤ 10 →
          (d.detect_kick now bd).2.triggered
            = decide ((bd.getD 0 0 + bd.getD 1 0) / 2 > d.threshold)
          ∧ (d.detect_kick now bd).2.strength
              = (if (bd.getD 0 0 + bd.getD 1 0) / 2 > d.threshold
                 then (bd.getD 0 0 + bd.getD 1 0) / 2 / max (1/100) d.threshold else 0))
      ∧ (10 < (dequeAppend 60 d.energy_history ((bd.getD 0 0 + bd.getD 1 0) / 2)).length →
          (d.detect_kick now bd).2.triggered
            = decide ((bd.getD 0 0 + bd.getD 1 0) / 2
                > listAvg (dequeAppend 60 d.energy_history ((bd.getD 0 0 + bd.getD 1 0) / 2))
                  + d.threshold * d.sensitivity)
          ∧ (d.detect_kick now bd).2.strength
              = (if (bd.getD 0 0 + bd.getD 1 0) / 2
                    > listAvg (dequeAppend 60 d.energy_history
                        ((bd.getD 0 0 + bd.getD 1 0) / 2)) + d.threshold * d.sensitivity
                 then (bd.getD 0 0 + bd.getD 1 0) / 2 / max (1/100)
                    (listAvg (dequeAppend 60 d.energy_history
                        ((bd.getD 0 0 + bd.getD 1 0) / 2)) + d.threshold * d.sensitivity)
                 else 0)))
    ∧ (∀ bd, 4 ≤ bd.length →
        ((dequeAppend 60 d.energy_history ((bd.getD 2 0 + bd.getD 3 0) / 2)).length ≤ 10 →
          (d.detect_snare now bd).2.triggered
            = decide ((bd.getD 2 0 + bd.getD 3 0) / 2 > d.threshold)
          ∧ (d.detect_snare now bd).2.strength
              = (if (bd.getD 2 0 + bd.getD 3 0) / 2 > d.threshold
                 then (bd.getD 2 0 + bd.getD 3 0) / 2 / max (1/100) d.threshold else 0))
      ∧ (10 < (dequeAppend 60 d.energy_history ((bd.getD 2 0 + bd.getD 3 0) / 2)).length →
          (d.detect_snare now bd).2.triggered
            = decide ((bd.getD 2 0 + bd.getD 3 0) / 2
                > listAvg (dequeAppend 60 d.energy_history ((bd.getD 2 0 + bd.getD 3 0) / 2))
                  + d.threshold * d.sensitivity)
          ∧ (d.detect_snare now bd).2.strength
              = (if (bd.getD 2 0 + bd.getD 3 0) / 2
                    > listAvg (dequeAppend 60 d.energy_history
                        ((bd.getD 2 0 + bd.getD 3 0) / 2)) + d.threshold * d.sensitivity
                 then (bd.getD 2 0 + bd.getD 3 0) / 2 / max (1/100)
                    (listAvg (dequeAppend 60 d.energy_history
                        ((bd.getD 2 0 + bd.getD 3 0) / 2)) + d.threshold * d.sensitivity)
                 else 0)))
    ∧ (∀ bd, 6 ≤ bd.length →
        ((dequeAppend 60 d.energy_history ((bd.drop (bd.length - 2)).sum / 2)).length ≤ 10 →
          (d.detect_hihat now bd).2.triggered
            = decide ((bd.drop (bd.length - 2)).sum / 2 > d.threshold)
          ∧ (d.detect_hihat now bd).2.strength
              = (if (bd.drop (bd.length - 2)).sum / 2 > d.threshold
                 then (bd.drop (bd.length - 2)).sum / 2 / max (1/100) d.threshold else 0))
      ∧ (10 < (dequeAppend 60 d.energy_history ((bd.drop (bd.length - 2)).sum / 2)).length →
          (d.detect_hihat now bd).2.triggered
            = decide ((bd.drop (bd.length - 2)).sum / 2
                > listAvg (dequeAppend 60 d.energy_history ((bd.drop (bd.length - 2)).sum / 2))
                  + d.threshold * d.sensitivity)
          ∧ (d.detect_hihat now bd).2.strength
              = (if (bd.drop (bd.length - 2)).sum / 2
                    > listAvg (dequeAppend 60 d.energy_history
                        ((bd.drop (bd.length - 2)).sum / 2)) + d.threshold * d.sensitivity
                 then (bd.drop (bd.length - 2)).sum / 2 / max (1/100)
                    (listAvg (dequeAppend 60 d.energy_history
                        ((bd.drop (bd.length - 2)).sum / 2)) + d.threshold * d.sensitivity)
                 else 0))) := by
  refine ⟨fun r p => ⟨fun h10 hc => ?_, fun h10 => ?_⟩,
    fun freq hp => ⟨fun h10 => ?_, fun h10 => ?_⟩,
    fun bd bi hbi => ⟨fun h10 => ?_, fun h10 => ?_⟩,
    fun bd hl => ⟨fun h10 => ?_, fun h10 => ?_⟩,
    fun bd hl => ⟨fun h10 => ?_, fun h10 => ?_⟩,
    fun bd hl => ⟨fun h10 => ?_, fun h10 => ?_⟩⟩
  · simp only [List.getD_eq_getElem?_getD] at h10 ⊢
    constructor <;>
      simp [TransientDetector.detect_energy_based, TransientDetector.detection_result,
        hs, not_lt.mpr h10, hc, apply_ite] <;>
      try (split <;> (rename_i hx; intro h2; first | linarith | exact absurd h2 hx))
  · simp only [List.getD_eq_getElem?_getD] at h10 ⊢
    constructor <;>
      simp [TransientDetector.detect_energy_based, TransientDetector.detection_result,
        hs, h10, apply_ite] <;>
      try (split <;> (rename_i hx; intro h2; first | linarith | exact absurd h2 hx))
  · simp only [List.getD_eq_getElem?_getD] at h10 ⊢
    constructor <;>
      simp [TransientDetector.detect_spectral_flux, TransientDetector.detection_result,
        hs, hp, not_lt.mpr h10, apply_ite] <;>
      try (split <;> (rename_i hx; intro h2; first | linarith | exact absurd h2 hx))
  · simp only [List.getD_eq_getElem?_getD] at h10 ⊢
    constructor <;>
      simp [TransientDetector.detect_spectral_flux, TransientDetector.detection_result,
        hs, hp, h10, apply_ite] <;>
      try (split <;> (rename_i hx; intro h2; first | linarith | exact absurd h2 hx))
  · simp only [List.getD_eq_getElem?_getD] at h10 ⊢
    constructor <;>
      simp [TransientDetector.detect_band_transient, TransientDetector.detection_result,
        hs, not_le.mpr hbi, not_lt.mpr h10, apply_ite] <;>
      try (split <;> (rename_i hx; intro h2; first | linarith | exact absurd h2 hx))
  · simp only [List.getD_eq_getElem?_getD] at h10 ⊢
    constructor <;>
      simp [TransientDetector.detect_band_transient, TransientDetector.detection_result,
        hs, not_le.mpr hbi, h10, apply_ite] <;>
      try (split <;> (rename_i hx; intro h2; first | linarith | exact absurd h2 hx))
  · simp only [List.getD_eq_getElem?_getD] at h10 ⊢
    constructor <;>
      simp [TransientDetector.detect_kick, TransientDetector.detection_result,
        hs, not_lt.mpr hl, not_lt.mpr h10, apply_ite] <;>
      try (split <;> (rename_i hx; intro h2; first | linarith | exact absurd h2 hx))
  · simp only [List.getD_eq_getElem?_getD] at h10 ⊢
    constructor <;>
      simp [TransientDetector.detect_kick, TransientDetector.detection_result,
        hs, not_lt.mpr hl, h10, apply_ite] <;>
      try (split <;> (rename_i hx; intro h2; first | linarith | exact absurd h2 hx))
  · simp only [List.getD_eq_getElem?_getD] at h10 ⊢
    constructor <;>
      simp [TransientDetector.detect_snare, TransientDetector.detection_result,
        hs, not_lt.mpr hl, not_lt.mpr h10, apply_ite] <;>
      try (split <;> (rename_i hx; intro h2; first | linarith | exact absurd h2 hx))
  · simp only [List.getD_eq_getElem?_getD] at h10 ⊢
    constructor <;>
      simp [TransientDetector.detect_snare, TransientDetector.detection_result,
        hs, not_lt.mpr hl, h10, apply_ite] <;>
      try (split <;> (rename_i hx; intro h2; first | linarith | exact absurd h2 hx))
  · simp only [List.getD_eq_getElem?_getD] at h10 ⊢
    constructor <;>
      simp [TransientDetector.detect_hihat, TransientDetector.detection_result,
        hs, not_lt.mpr hl, not_lt.mpr h10, apply_ite] <;>
      try (split <;> (rename_i hx; intro h2; first | linarith | exact absurd h2 hx))
  · simp only [List.getD_eq_getElem?_getD] at h10 ⊢
    constructor <;>
      simp [TransientDetector.detect_hihat, TransientDetector.detection_result,
        hs, not_lt.mpr hl, h10, apply_ite] <;>
      try (split <;> (rename_i hx; intro h2; first | linarith | exact absurd h2 hx))

theorem adaptive_threshold_transition_witness :
    ((TransientDetector.init (3/10) (1/2) 100).detect_energy_based 100 0 (1/2)).2.triggered
        = true
    ∧ ((TransientDetector.init (3/10) (1/2) 100).detect_energy_based 100 0 (1/2)).2.strength
        = 5/3 := by
  have hs : ¬((100:ℚ) - (TransientDetector.init (3/10) (1/2) 100).last_trigger_time
      < (TransientDetector.init (3/10) (1/2) 100).min_interval_ms) := by
    norm_num [TransientDetector.init]
  have h := ((adaptive_threshold_transition (TransientDetector.init (3/10) (1/2) 100)
      100 hs).1 0 (1/2)).1
    (by simp [TransientDetector.init, dequeAppend]) rfl
  refine ⟨?_, ?_⟩
  · rw [h.1]
    norm_num [TransientDetector.init, decide_eq_true_eq]
  · rw [h.2]
    norm_num [TransientDetector.init, max_def]

/-- Claim C4, amended: `get_frequency_range(0, 0, rate)` returns 0, and a
range lying entirely below 0 Hz returns 0; a range lying entirely above
the Nyquist frequency `rate/2`, however, is clamped into the topmost bin
and returns that bin's magnitude (0 only when that bin happens to hold 0). -/
theorem frequency_range_boundary (a : AudioAnalyzer)
    (min_freq max_freq sample_rate : ℚ) (n : ℕ) :
    a.get_frequency_range 0 0 sample_rate = 0
    ∧ (max_freq < 0 → 0 < sample_rate →
        a.get_frequency_range min_freq max_freq sample_rate = 0)
    ∧ (a.fft_size = 2 * n → a.frequency_data.length = n → 1 ≤ n → 0 < sample_rate →
        sample_rate / 2 < min_freq → min_freq ≤ max_freq →
        a.get_frequency_range min_freq max_freq sample_rate
          = a.frequency_data.getD (n - 1) 0) := by
  refine ⟨?_, fun hneg hrate => ?_, fun hf hlen hn hrate hmin hmax => ?_⟩
  · have hn : (0:ℤ) ≤ (a.frequency_data.length : ℤ) := Int.natCast_nonneg _
    simp [AudioAnalyzer.get_frequency_range, truncInt, min_eq_left hn, le_max_left]
  · have hend : truncInt (max_freq / (sample_rate / (a.fft_size : ℚ))) ≤ 0 := by
      rcases Nat.eq_zero_or_pos a.fft_size with hf | hf
      · simp [hf, truncInt]
      · have hfpos : (0:ℚ) < sample_rate / (a.fft_size : ℚ) := by positivity
        have hx : max_freq / (sample_rate / (a.fft_size : ℚ)) < 0 :=
          div_neg_of_neg_of_pos hneg hfpos
        rw [truncInt, if_neg (not_le.mpr hx)]
        exact Int.ceil_le.mpr (by exact_mod_cast hx.le)
    have hcl : max 0 (min (truncInt (max_freq / (sample_rate / (a.fft_size : ℚ))))
        ((a.frequency_data.length : ℤ))) = 0 := by
      rw [min_eq_left (le_trans hend (Int.natCast_nonneg _)), max_eq_left hend]
    simp only [AudioAnalyzer.get_frequency_range]
    rw [hcl, if_pos (le_max_left _ _)]
  · have hnpos : (0:ℚ) < (n:ℚ) := by exact_mod_cast hn
    have hfpos : (0:ℚ) < sample_rate / (a.fft_size : ℚ) := by
      rw [hf]; push_cast; positivity
    have hx : (n:ℚ) < min_freq / (sample_rate / (a.fft_size : ℚ)) := by
      rw [hf, div_div_eq_mul_div, lt_div_iff hrate]
      push_cast
      nlinarith
    have hy : (n:ℚ) < max_freq / (sample_rate / (a.fft_size : ℚ)) :=
      lt_of_lt_of_le hx ((div_le_div_right hfpos).mpr hmax)
    have hsb : (n:ℤ) ≤ truncInt (min_freq / (sample_rate / (a.fft_size : ℚ))) := by
      rw [truncInt, if_pos (le_of_lt (lt_trans hnpos hx))]
      exact Int.le_floor.mpr (by exact_mod_cast hx.le)
    have heb : (n:ℤ) ≤ truncInt (max_freq / (sample_rate / (a.fft_size : ℚ))) := by
      rw [truncInt, if_pos (le_of_lt (lt_trans hnpos hy))]
      exact Int.le_floor.mpr (by exact_mod_cast hy.le)
    have h1 : max 0 (min (truncInt (min_freq / (sample_rate / (a.fft_size : ℚ))))
        ((a.frequency_data.length : ℤ) - 1)) = (n:ℤ) - 1 := by
      rw [hlen, min_eq_right (by omega), max_eq_right (by omega)]
    have h2 : max 0 (min (truncInt (max_freq / (sample_rate / (a.fft_size : ℚ))))
        ((a.frequency_data.length : ℤ))) = (n:ℤ) := by
      rw [hlen, min_eq_right heb, max_eq_right (by omega)]
    simp only [AudioAnalyzer.get_frequency_range]
    rw [h1, h2, if_neg (by omega)]
    have ht1 : ((n:ℤ) - 1).toNat = n - 1 := by omega
    have ht2 : ((n:ℤ) - ((n:ℤ) - 1)).toNat = 1 := by omega
    rw [ht1, ht2]
    have hidx : n - 1 < a.frequency_data.length := by omega
    have hden : ((n:ℤ):ℚ) - (((n:ℤ) - 1 : ℤ):ℚ) = 1 := by push_cast; ring
    rw [hden]
    have hslice : List.take 1 (List.drop (n - 1) a.frequency_data)
        = [a.frequency_data[n - 1]] := by
      rw [List.drop_eq_getElem_cons hidx]
      rfl
    rw [hslice]
    simp [List.getD_eq_getElem?_getD, List.getElem?_eq_getElem hidx]

/-- Counterexample to claim C4 as stated: on an analyzer holding energy 5
in its topmost bin, the range 3-4 Hz at sample rate 4 (entirely above the
Nyquist frequency 2) returns 5, not 0. -/
theorem frequency_range_above_nyquist :
    AudioAnalyzer.get_frequency_range topBinAnalyzer 3 4 4 ≠ 0 := by
  norm_num [topBinAnalyzer, AudioAnalyzer.get_frequency_range, AudioAnalyzer.init, truncInt]

theorem frequency_range_boundary_witness :
    AudioAnalyzer.get_frequency_range topBinAnalyzer (-5) (-1) 4 = 0
    ∧ AudioAnalyzer.get_frequency_range topBinAnalyzer 3 4 4
        = topBinAnalyzer.frequency_data.getD 1 0 := by
  refine ⟨(frequency_range_boundary topBinAnalyzer (-5) (-1) 4 2).2.1
    (by norm_num) (by norm_num), ?_⟩
  exact (frequency_range_boundary topBinAnalyzer 3 4 4 2).2.2
    (by norm_num [topBinAnalyzer, AudioAnalyzer.init])
    (by simp [topBinAnalyzer]) (by norm_num) (by norm_num) (by norm_num) (by norm_num)

/-- Claim C5, amended: with `binCount = 10` and `numBands = 8` the band
boundaries equal `floor(10/8 * i)` for `i = 0..8`, i.e. `[0, 1, 2, 3, 5,
6, 7, 8, 10]`, and no group is empty — the eight band values are
`[b0, b1, b2, (b3+b4)/2, b5, b6, b7, (b8+b9)/2]`; the empty-group
truncation artifact instead appears when `numBands` exceeds `binCount`,
e.g. 16 bands over 10 bins make band 0 structurally 0. -/
theorem band_partition_ten_eight :
    ((List.range 9).map (AudioAnalyzer.startBin 10 8)) = [0, 1, 2, 3, 5, 6, 7, 8, 10]
    ∧ (∀ q0 q1 q2 q3 q4 q5 q6 q7 q8 q9 : ℚ,
        AudioAnalyzer.calculate_bands [q0, q1, q2, q3, q4, q5, q6, q7, q8, q9] 8
          = [q0, q1, q2, (q3 + q4) / 2, q5, q6, q7, (q8 + q9) / 2])
    ∧ (∀ fd : List ℚ, fd.length = 10 →
        (AudioAnalyzer.calculate_bands fd 16).getD 0 0 = 0) := by
  refine ⟨?_, fun q0 q1 q2 q3 q4 q5 q6 q7 q8 q9 => ?_, fun fd hfd => ?_⟩
  · norm_num [AudioAnalyzer.startBin, truncInt, List.range_succ]
    simp
  · norm_num [AudioAnalyzer.calculate_bands, AudioAnalyzer.startBin, truncInt,
      List.range_succ]
    norm_num [Int.toNat]
  · norm_num [AudioAnalyzer.calculate_bands, AudioAnalyzer.startBin, truncInt,
      List.range_succ, hfd]

theorem band_partition_witness :
    (AudioAnalyzer.calculate_bands [0, 0, 0, 0, 0, 0, 0, 0, 0, 0] 16).getD 0 0 = (0:ℚ) :=
  band_partition_ten_eight.2.2 [0, 0, 0, 0, 0, 0, 0, 0, 0, 0] (by norm_num)

/-- Counterexample to claim C5 as stated: over a 10-bin all-ones spectrum
split into 8 bands, no band value is 0 — no group is empty. -/
theorem band_partition_no_empty_group :
    (0:ℚ) ∉ AudioAnalyzer.calculate_bands [1, 1, 1, 1, 1, 1, 1, 1, 1, 1] 8 := by
  norm_num [AudioAnalyzer.calculate_bands, AudioAnalyzer.startBin, truncInt, List.range_succ]
  norm_num [Int.toNat]

/-- Claim C7, amended: for non-negative `attack_ms`, `release_ms` and
`fps`, `set_attack_release` sets the attack and release tick counts to
`max(1, floor(ms/1000 * fps))` — truncation via `int()`, not rounding to
the nearest integer. -/
theorem attack_release_truncation (a : AudioAnalyzer) (attack_ms release_ms fps : ℚ)
    (ha : 0 ≤ attack_ms) (hr : 0 ≤ release_ms) (hf : 0 ≤ fps) :
    (a.set_attack_release attack_ms release_ms fps).attack_frames
        = max 1 (⌊attack_ms / 1000 * fps⌋).toNat
    ∧ (a.set_attack_release attack_ms release_ms fps).release_frames
        = max 1 (⌊release_ms / 1000 * fps⌋).toNat := by
  have h1 : (0:ℚ) ≤ attack_ms / 1000 * fps := mul_nonneg (div_nonneg ha (by norm_num)) hf
  have h2 : (0:ℚ) ≤ release_ms / 1000 * fps := mul_nonneg (div_nonneg hr (by norm_num)) hf
  constructor <;> simp [AudioAnalyzer.set_attack_release, truncInt, h1, h2]

theorem attack_release_truncation_witness :
    ((AudioAnalyzer.init 4 (4/5)).set_attack_release 30 30 60).attack_frames = 1 := by
  have h := (attack_release_truncation (AudioAnalyzer.init 4 (4/5)) 30 30 60
    (by norm_num) (by norm_num) (by norm_num)).1
  rw [h]
  norm_num

/-- Counterexample to claim C7 as stated: 30 ms at 60 fps is 1.8 ticks;
the code truncates to 1 tick where rounding would give 2. -/
theorem attack_release_not_rounded :
    ((AudioAnalyzer.init 4 (4/5)).set_attack_release 30 30 60).attack_frames
      ≠ (max 1 (round ((30:ℚ) / 1000 * 60))).toNat := by
  norm_num [AudioAnalyzer.set_attack_release, AudioAnalyzer.init, truncInt, round_eq]
  simp

/-- Claim C8, amended: `reset()` followed by `analyze_chop` returns the
same frame (and state) as a freshly constructed analyzer with the same
`fft_size` and smoothing constant, provided the attack/release tick counts
are at their constructor defaults (1 and 30) — `reset` preserves a
`set_attack_release` reconfiguration, which a fresh instance does not
have. -/
theorem reset_fresh_equiv (sqrtFn : ℚ → ℚ) (a : AudioAnalyzer) (input : Option ChopRef)
    (h1 : a.frequency_bin_count = a.fft_size / 2) (h2 : a.history_size = 60)
    (h3 : a.attack_frames = 1) (h4 : a.release_frames = 30) :
    AudioAnalyzer.analyze_chop sqrtFn a.reset input
      = AudioAnalyzer.analyze_chop sqrtFn
          (AudioAnalyzer.init a.fft_size a.smoothing_time_constant) input := by
  have hst : a.reset = AudioAnalyzer.init a.fft_size a.smoothing_time_constant := by
    cases a
    simp_all [AudioAnalyzer.reset, AudioAnalyzer.init]
  rw [hst]

theorem reset_fresh_equiv_witness :
    AudioAnalyzer.analyze_chop id (AudioAnalyzer.init 8 (1/2)).reset oneSampleInput
      = AudioAnalyzer.analyze_chop id (AudioAnalyzer.init 8 (1/2)) oneSampleInput :=
  reset_fresh_equiv id (AudioAnalyzer.init 8 (1/2)) oneSampleInput rfl rfl rfl rfl

/-- Counterexample to claim C8 as stated: after `set_attack_release(100,
100, 60)` (6 attack ticks), `reset` keeps the 6-tick attack, so the next
frame's envelope is 1/6 while a freshly constructed analyzer reports 1. -/
theorem reset_fresh_counterexample :
    (AudioAnalyzer.analyze_chop id slowAttackAnalyzer.reset oneSampleInput).2
      ≠ (AudioAnalyzer.analyze_chop id (AudioAnalyzer.init 4 (4/5)) oneSampleInput).2 := by
  intro h
  have he := congrArg Frame.envelope h
  norm_num [slowAttackAnalyzer, oneSampleInput, AudioAnalyzer.analyze_chop,
    AudioAnalyzer.reset, AudioAnalyzer.init, AudioAnalyzer.set_attack_release,
    AudioAnalyzer.update_levels, AudioAnalyzer.smoothList, truncInt, dequeAppend,
    listMax, max_def, min_def] at he
  norm_num [Int.toNat] at he
